import Mathlib

/-!
Verification development for the gocryptotrader database migration tool
(`main` of the migration command) and the fixer.io forex provider client.

The migration tool's `main` is embedded as a pure function from an input
record (configuration-load outcome, database settings, driver connection
outcomes, command-line values, and the external goose library's behaviour
given as an oracle function) to a trace record (process exit code, number
of database connection attempts, the calls delegated to goose, the
messages printed, and whether usage was shown).  External effectful calls
(driver connections, goose runs, HTTP requests) are modelled as oracle
inputs so that the control flow of the source is captured exactly.
-/

/-- Modelled from the spec: the driver identifier strings are constants of
the repository's `database` package, which is not among the provided source
files; the spec names the two supported dialect families (Postgres and the
SQLite family) selected by the external ConfigLoader. -/
def DBPostgreSQL : String := "postgres"

/-- Modelled from the spec: SQLite driver identifier (see `DBPostgreSQL`). -/
def DBSQLite : String := "sqlite"

/-- Modelled from the spec: SQLite3 driver identifier (see `DBPostgreSQL`). -/
def DBSQLite3 : String := "sqlite3"

/-- One delegation to the external goose migration library:
`goose.Run(command, dbConn.SQL, drv, migrationDir, args)`.  The database
handle is abstracted as a natural number. -/
structure GooseCall where
  command : String
  db : Nat
  dialect : String
  dir : String
  args : String
deriving DecidableEq

/-- Input of one invocation of the migration tool: flag values, the
outcome of configuration loading, the database section of the
configuration, the two drivers' connection outcomes, the dialect reported
by `repository.GetSQLDialect()`, and the goose library's behaviour as an
oracle from (command, db handle, dialect, dir, args) to an optional
error. -/
structure MainInput where
  configLoadErr : Option String
  databaseEnabled : Bool
  databaseDriver : String
  databaseHost : String
  databaseName : String
  psqlConnect : Except String Nat
  sqliteConnect : Except String Nat
  dialect : String
  command : String
  args : String
  migrationDir : String
  gooseRun : String → Nat → String → String → String → Option String

/-- Observable trace of one invocation: the exit status of the process,
how many driver connection attempts were made, the calls delegated to
goose in order, the messages printed, and whether `flag.Usage` was
shown. -/
structure MainTrace where
  exitCode : Nat
  connectAttempts : Nat
  gooseCalls : List GooseCall
  printed : List String
  usageShown : Bool
deriving DecidableEq

/-- Embedding of `openDbConnection` from the migration tool's source: the
Postgres driver is tried when the driver string is `DBPostgreSQL`, the
SQLite driver when it is `DBSQLite` or `DBSQLite3`, and any other driver
string yields the error `no connection established` without attempting a
connection.  A failed attempt wraps the driver error.  The second
component counts connection attempts. -/
def openDbConnection (i : MainInput) : Except String Nat × Nat :=
  if i.databaseDriver = DBPostgreSQL then
    match i.psqlConnect with
    | Except.error e =>
        (Except.error ("database failed to connect: " ++ e ++
          ", some features that utilise a database will be unavailable"), 1)
    | Except.ok db => (Except.ok db, 1)
  else if i.databaseDriver = DBSQLite ∨ i.databaseDriver = DBSQLite3 then
    match i.sqliteConnect with
    | Except.error e =>
        (Except.error ("database failed to connect: " ++ e ++
          ", some features that utilise a database will be unavailable"), 1)
    | Except.ok db => (Except.ok db, 1)
  else
    (Except.error ("no connection established"), 0)

/-- Message printed after a successful connection, from the source:
`Database file: <name>` for the SQLite family, otherwise
`Connected to: <host>`. -/
def connMessage (i : MainInput) : String :=
  if i.dialect = DBSQLite ∨ i.dialect = DBSQLite3 then
    ("Database file: " ++ i.databaseName)
  else
    ("Connected to: " ++ i.databaseHost)

/-- Embedding of `main` from the migration tool's source.  Configuration
load failure, disabled database support, and connection failure each print
the error and exit with status 1 before anything further happens.  With an
empty command the source runs `goose.Run("status", ...)` discarding its
error (`_ =`), prints usage and returns (exit 0).  With a non-empty
command the source runs goose once with the flag values unmodified,
prints the error if goose returned one, and falls off `main` (exit 0). -/
def runMain (i : MainInput) : MainTrace :=
  match i.configLoadErr with
  | some e => ⟨1, 0, [], [e], false⟩
  | none =>
    if i.databaseEnabled = false then
      ⟨1, 0, [], ["Database support is disabled"], false⟩
    else
      match openDbConnection i with
      | (Except.error e, n) => ⟨1, n, [], [e], false⟩
      | (Except.ok db, n) =>
        if i.command = "" then
          ⟨0, n, [⟨"status", db, i.dialect, i.migrationDir, ""⟩], [connMessage i], true⟩
        else
          match i.gooseRun i.command db i.dialect i.migrationDir i.args with
          | some e =>
              ⟨0, n, [⟨i.command, db, i.dialect, i.migrationDir, i.args⟩],
                [connMessage i, e], false⟩
          | none =>
              ⟨0, n, [⟨i.command, db, i.dialect, i.migrationDir, i.args⟩],
                [connMessage i], false⟩

/-- The command set named by the spec for the CLI surface. -/
def gooseCommands : List String :=
  ["status", "up", "up-by-one", "up-to", "down", "down-to", "create"]

/-- Concrete invocation in which startup succeeds and the requested
migration command fails inside goose. -/
def gooseFailInput : MainInput :=
  { configLoadErr := none
    databaseEnabled := true
    databaseDriver := "postgres"
    databaseHost := "localhost"
    databaseName := "gct"
    psqlConnect := Except.ok 7
    sqliteConnect := Except.error ("unused")
    dialect := "postgres"
    command := "up"
    args := ""
    migrationDir := "migrations"
    gooseRun := fun _ _ _ _ _ => some ("migration failed") }

/-- Concrete invocation with an empty command whose default status action
fails inside goose. -/
def statusFailInput : MainInput :=
  { gooseFailInput with
    command := ""
    gooseRun := fun _ _ _ _ _ => some ("status failed") }

/-- Concrete invocation whose command is not in the documented command
set and whose goose run succeeds. -/
def bogusCommandInput : MainInput :=
  { gooseFailInput with
    command := "frobnicate"
    gooseRun := fun _ _ _ _ _ => none }

namespace Goose

/-- Modelled from the spec: the goose migration engine is an external
library, not among the provided source files; the spec defines the engine
the library implements.  `insertAsc` inserts a version into an
ascending-sorted list of versions. -/
def insertAsc (v : Nat) : List Nat → List Nat
  | [] => [v]
  | w :: ws => if v ≤ w then v :: w :: ws else w :: insertAsc v ws

/-- Modelled from the spec: the MigrationRegistry orders the migration
set by ascending version. -/
def sortAsc (l : List Nat) : List Nat := l.foldr insertAsc []

/-- Modelled from the spec: the MigrationPlanner's plan for the `up`
command is all pending versions (known to the registry, absent from the
ledger) in ascending order, direction up. -/
def planUp (registry ledger : List Nat) : List Nat :=
  sortAsc (registry.filter (fun v => decide (v ∉ ledger)))

/-- Modelled from the spec: the MigrationRunner executes the plan's steps
in order; a step whose up-script succeeds (the oracle `exec` returns
`true`) is recorded in the ledger within the step's transaction; a step
whose script fails is rolled back, the remaining plan is aborted, and
earlier committed steps remain.  Returns the resulting ledger and whether
the whole plan completed. -/
def runSteps (exec : Nat → Bool) (ledger : List Nat) : List Nat → List Nat × Bool
  | [] => (ledger, true)
  | v :: vs => if exec v then runSteps exec (ledger ++ [v]) vs else (ledger, false)

/-- Modelled from the spec: one `up` run — plan from current ledger state,
then execute the plan. -/
def runUp (exec : Nat → Bool) (registry ledger : List Nat) : List Nat × Bool :=
  runSteps exec ledger (planUp registry ledger)

end Goose

-- Embedding of the fixer.io forex provider (`fixer.go`).  The account
-- level constants are the iota block of the source; response structures
-- carry exactly the fields the source reads (`Success`, `Error.Type`,
-- `Error.Info` flattened to `errType`/`errInfo`, `Rates`/`Result`), with
-- numeric rate values abstracted as integers; the HTTP layer
-- (`SendOpenHTTPRequest`) is abstracted as an oracle argument `net`
-- giving either a transport error or the decoded response.

/-- Account level `fixerAPIFree` (iota value 0) from the source. -/
def fixerAPIFree : Int := 0

/-- Account level `fixerAPIBasic` (iota value 1) from the source. -/
def fixerAPIBasic : Int := 1

/-- Account level `fixerAPIProfessional` (iota value 2) from the source. -/
def fixerAPIProfessional : Int := 2

/-- Account level `fixerAPIProfessionalPlus` (iota value 3) from the source. -/
def fixerAPIProfessionalPlus : Int := 3

/-- Account level `fixerAPIEnterprise` (iota value 4) from the source. -/
def fixerAPIEnterprise : Int := 4

/-- The fields of `base.Settings` that `Fixer.Setup` reads. -/
structure Settings where
  APIKey : String
  APIKeyLvl : Int
  Enabled : Bool
  Name : String
  RESTPollingDelay : Int
  Verbose : Bool
  PrimaryProvider : Bool
deriving DecidableEq

/-- The `Fixer` provider state: the embedded `base.Base` fields the source
assigns, plus whether the `Requester` has been initialised. -/
structure Fixer where
  APIKey : String
  APIKeyLvl : Int
  Enabled : Bool
  Name : String
  RESTPollingDelay : Int
  Verbose : Bool
  PrimaryProvider : Bool
  RequesterSet : Bool
deriving DecidableEq

/-- Decoded `latest` response (`Rates` struct): success flag, error type
and info, and the rate map as an association list from symbol to value. -/
structure Rates where
  success : Bool
  errType : String
  errInfo : String
  rates : List (String × Int)
deriving DecidableEq

/-- Decoded `convert` response (`Conversion` struct). -/
structure Conversion where
  success : Bool
  errType : String
  errInfo : String
  result : Int
deriving DecidableEq

/-- Decoded `timeseries` response (`TimeSeries` struct); the
`map[string]interface` values are abstracted as integers. -/
structure TimeSeries where
  success : Bool
  errType : String
  errInfo : String
  rates : List (String × Int)
deriving DecidableEq

/-- One `Flux` fluctuation entry, abstracted. -/
structure Flux where
  startRate : Int
  endRate : Int
  change : Int
  changePct : Int
deriving DecidableEq

/-- Decoded `fluctuation` response (`Fluctuation` struct). -/
structure Fluctuation where
  success : Bool
  errType : String
  errInfo : String
  rates : List (String × Flux)
deriving DecidableEq

/-- Embedding of `Fixer.Setup`: an `APIKeyLvl` outside `[0, 4]` is
rejected with the error `apikey set failure` and the receiver is left
untouched; otherwise every settings field is copied onto the receiver and
the `Requester` is initialised.  Returns the updated receiver and the
optional error. -/
def Fixer.Setup (f : Fixer) (config : Settings) : Fixer × Option String :=
  if config.APIKeyLvl < 0 ∨ 4 < config.APIKeyLvl then
    (f, some ("apikey set failure"))
  else
    ({ APIKey := config.APIKey
       APIKeyLvl := config.APIKeyLvl
       Enabled := config.Enabled
       Name := config.Name
       RESTPollingDelay := config.RESTPollingDelay
       Verbose := config.Verbose
       PrimaryProvider := config.PrimaryProvider
       RequesterSet := true }, none)

/-- Embedding of `Fixer.GetLatestRates`: the HTTP exchange is the oracle
`net`; a transport error is returned with the zero-valued rates, an
unsuccessful response yields the concatenated API error, and a successful
response yields its rates.  (In the source the `base` query parameter is
only added above the free tier; the query string itself is not modelled.) -/
def Fixer.GetLatestRates (f : Fixer) (baseCurrency symbols : String)
    (net : Except String Rates) : List (String × Int) × Option String :=
  match net with
  | Except.error e => ([], some e)
  | Except.ok resp =>
      if resp.success = false then (resp.rates, some (resp.errType ++ resp.errInfo))
      else (resp.rates, none)

/-- Embedding of `Fixer.GetRates`: calls `GetLatestRates`; on success,
when the account level is the free tier the base currency is overwritten
with `EUR`, and every rate key is prefixed with the (possibly overwritten)
base currency. -/
def Fixer.GetRates (f : Fixer) (baseCurrency symbols : String)
    (net : Except String Rates) : Option (List (String × Int)) × Option String :=
  let r := Fixer.GetLatestRates f baseCurrency symbols net
  match r.2 with
  | some e => (none, some e)
  | none =>
      let base := if f.APIKeyLvl = fixerAPIFree then ("EUR") else baseCurrency
      (some (r.1.map (fun p => (base ++ p.1, p.2))), none)

/-- Embedding of `Fixer.ConvertCurrency`: below the basic tier it returns
`(0, error)` without any HTTP request (the final boolean records whether a
request was sent); otherwise the conversion response is consulted. -/
def Fixer.ConvertCurrency (f : Fixer) (fromCur toCur date : String) (amount : Int)
    (net : Except String Conversion) : (Int × Option String) × Bool :=
  if f.APIKeyLvl < fixerAPIBasic then
    ((0, some ("insufficient API privileges, upgrade to basic to use this function")), false)
  else
    match net with
    | Except.error e => ((0, some e), true)
    | Except.ok resp =>
        if resp.success = false then
          ((resp.result, some (resp.errType ++ resp.errInfo)), true)
        else ((resp.result, none), true)

/-- Embedding of `Fixer.GetTimeSeriesData`: below the professional tier it
returns `(nil, error)` without any HTTP request (the final boolean records
whether a request was sent); `nil` maps are modelled as `none`. -/
def Fixer.GetTimeSeriesData (f : Fixer) (startDate endDate baseCurrency : String)
    (symbols : List String) (net : Except String TimeSeries) :
    (Option (List (String × Int)) × Option String) × Bool :=
  if f.APIKeyLvl < fixerAPIProfessional then
    ((none, some ("insufficient API privileges, upgrade to professional to use this function")),
      false)
  else
    match net with
    | Except.error e => ((none, some e), true)
    | Except.ok resp =>
        if resp.success = false then
          ((some resp.rates, some (resp.errType ++ resp.errInfo)), true)
        else ((some resp.rates, none), true)

/-- Embedding of `Fixer.GetFluctuationData`: below the professional-plus
tier it returns `(nil, error)` without any HTTP request (the final boolean
records whether a request was sent). -/
def Fixer.GetFluctuationData (f : Fixer) (startDate endDate baseCurrency : String)
    (symbols : List String) (net : Except String Fluctuation) :
    (Option (List (String × Flux)) × Option String) × Bool :=
  if f.APIKeyLvl < fixerAPIProfessionalPlus then
    ((none,
      some ("insufficient API privileges, upgrade to professional plus or enterprise to use this function")),
      false)
  else
    match net with
    | Except.error e => ((none, some e), true)
    | Except.ok resp =>
        if resp.success = false then
          ((some resp.rates, some (resp.errType ++ resp.errInfo)), true)
        else ((some resp.rates, none), true)

/-- Concrete free-tier provider for witnesses. -/
def freeFixer : Fixer :=
  { APIKey := "k"
    APIKeyLvl := 0
    Enabled := true
    Name := "Fixer"
    RESTPollingDelay := 10
    Verbose := false
    PrimaryProvider := true
    RequesterSet := true }

/-- Concrete successful `latest` response for witnesses. -/
def usdRatesNet : Except String Rates :=
  Except.ok { success := true, errType := "", errInfo := "", rates := [("USD", 2)] }

/-- Concrete settings with an account level outside `[0, 4]`. -/
def badSettings : Settings :=
  { APIKey := "k2"
    APIKeyLvl := 9
    Enabled := true
    Name := "Fixer"
    RESTPollingDelay := 10
    Verbose := true
    PrimaryProvider := false }

-- Branch lemmas for `runMain`, shared by the claim theorems below.

theorem runMain_configErr (i : MainInput) (e : String)
    (h : i.configLoadErr = some e) : runMain i = ⟨1, 0, [], [e], false⟩ := by
  unfold runMain
  rw [h]

theorem runMain_disabled (i : MainInput) (hc : i.configLoadErr = none)
    (hd : i.databaseEnabled = false) :
    runMain i = ⟨1, 0, [], ["Database support is disabled"], false⟩ := by
  unfold runMain
  rw [hc, hd]
  simp

theorem runMain_connErr (i : MainInput) (e : String) (n : Nat)
    (hc : i.configLoadErr = none) (hd : i.databaseEnabled = true)
    (hconn : openDbConnection i = (Except.error e, n)) :
    runMain i = ⟨1, n, [], [e], false⟩ := by
  unfold runMain
  rw [hc, hd, hconn]
  simp

theorem runMain_emptyCommand (i : MainInput) (db n : Nat)
    (hc : i.configLoadErr = none) (hd : i.databaseEnabled = true)
    (hconn : openDbConnection i = (Except.ok db, n)) (hcmd : i.command = "") :
    runMain i =
      ⟨0, n, [⟨"status", db, i.dialect, i.migrationDir, ""⟩], [connMessage i], true⟩ := by
  unfold runMain
  rw [hc, hd, hconn, hcmd]
  simp

theorem runMain_gooseErr (i : MainInput) (db n : Nat) (e : String)
    (hc : i.configLoadErr = none) (hd : i.databaseEnabled = true)
    (hconn : openDbConnection i = (Except.ok db, n)) (hcmd : ¬ i.command = "")
    (hg : i.gooseRun i.command db i.dialect i.migrationDir i.args = some e) :
    runMain i =
      ⟨0, n, [⟨i.command, db, i.dialect, i.migrationDir, i.args⟩],
        [connMessage i, e], false⟩ := by
  unfold runMain
  rw [hc, hd, hconn]
  simp [hcmd, hg]

theorem runMain_gooseOk (i : MainInput) (db n : Nat)
    (hc : i.configLoadErr = none) (hd : i.databaseEnabled = true)
    (hconn : openDbConnection i = (Except.ok db, n)) (hcmd : ¬ i.command = "")
    (hg : i.gooseRun i.command db i.dialect i.migrationDir i.args = none) :
    runMain i =
      ⟨0, n, [⟨i.command, db, i.dialect, i.migrationDir, i.args⟩],
        [connMessage i], false⟩ := by
  unfold runMain
  rw [hc, hd, hconn]
  simp [hcmd, hg]

theorem openDbConnection_ok_attempts (i : MainInput) (db n : Nat)
    (h : openDbConnection i = (Except.ok db, n)) : n = 1 := by
  unfold openDbConnection at h
  by_cases h1 : i.databaseDriver = DBPostgreSQL
  · rw [if_pos h1] at h
    cases hp : i.psqlConnect <;> rw [hp] at h <;> simp_all
  · rw [if_neg h1] at h
    by_cases h2 : i.databaseDriver = DBSQLite ∨ i.databaseDriver = DBSQLite3
    · rw [if_pos h2] at h
      cases hp : i.sqliteConnect <;> rw [hp] at h <;> simp_all
    · rw [if_neg h2] at h
      simp_all

namespace Goose

theorem runSteps_eq (exec : Nat → Bool) :
    ∀ (plan ledger : List Nat),
      runSteps exec ledger plan = (ledger ++ plan.takeWhile exec, plan.all exec)
  | [], ledger => by simp [runSteps]
  | v :: vs, ledger => by
    by_cases h : exec v = true
    · rw [runSteps, if_pos h, runSteps_eq exec vs (ledger ++ [v])]
      simp [List.takeWhile_cons, h]
    · rw [runSteps, if_neg h]
      simp only [Bool.not_eq_true] at h
      simp [List.takeWhile_cons, h]

theorem mem_insertAsc (a v : Nat) :
    ∀ l : List Nat, a ∈ insertAsc v l ↔ a = v ∨ a ∈ l
  | [] => by simp [insertAsc]
  | w :: ws => by
    by_cases h : v ≤ w
    · simp [insertAsc, if_pos h]
    · simp only [insertAsc, if_neg h, List.mem_cons, mem_insertAsc a v ws]
      tauto

theorem mem_sortAsc (a : Nat) :
    ∀ l : List Nat, a ∈ sortAsc l ↔ a ∈ l
  | [] => by simp [sortAsc]
  | v :: vs => by
    have ih := mem_sortAsc a vs
    simp only [sortAsc, List.foldr] at ih ⊢
    rw [mem_insertAsc, ih, List.mem_cons]

end Goose

/-- C4: if configuration loading fails or database support is disabled,
the process reports the error and exits with status 1 before any database
interaction (no connection attempt, no goose call); if the database
connection cannot be established, the process reports the error and exits
with status 1 with no goose (ledger) access attempted. -/
theorem c4_startup_failures_exit_early (i : MainInput) :
    (∀ e, i.configLoadErr = some e →
      runMain i = ⟨1, 0, [], [e], false⟩)
  ∧ (i.configLoadErr = none → i.databaseEnabled = false →
      runMain i = ⟨1, 0, [], ["Database support is disabled"], false⟩)
  ∧ (∀ e n, i.configLoadErr = none → i.databaseEnabled = true →
      openDbConnection i = (Except.error e, n) →
      (runMain i).exitCode = 1 ∧ (runMain i).gooseCalls = [] ∧
      (runMain i).printed = [e]) := by
  refine ⟨?_, ?_, ?_⟩
  · intro e he
    exact runMain_configErr i e he
  · intro hc hd
    exact runMain_disabled i hc hd
  · intro e n hc hd hconn
    rw [runMain_connErr i e n hc hd hconn]
    exact ⟨rfl, rfl, rfl⟩

/-- C5: for every non-empty command, once startup has succeeded the tool
delegates exactly once to the goose migration library, passing the
user-supplied command, database handle, dialect, migration directory and
args unmodified. -/
theorem c5_goose_passthrough (i : MainInput) (db n : Nat)
    (hc : i.configLoadErr = none) (hd : i.databaseEnabled = true)
    (hconn : openDbConnection i = (Except.ok db, n)) (hcmd : ¬ i.command = "") :
    (runMain i).gooseCalls = [⟨i.command, db, i.dialect, i.migrationDir, i.args⟩] := by
  cases hg : i.gooseRun i.command db i.dialect i.migrationDir i.args with
  | none => rw [runMain_gooseOk i db n hc hd hconn hcmd hg]
  | some e => rw [runMain_gooseErr i db n e hc hd hconn hcmd hg]

/-- Witness for C5 at a concrete invocation. -/
theorem c5_goose_passthrough_witness :
    (runMain gooseFailInput).gooseCalls = [⟨"up", 7, "postgres", "migrations", ""⟩] :=
  c5_goose_passthrough gooseFailInput 7 1 rfl rfl rfl (by decide)

/-- C1 counterexample: a concrete run in which the migration command
fails inside goose (goose.Run returns an error and was indeed invoked),
yet the process exits with status 0. -/
theorem c1_counterexample :
    gooseFailInput.gooseRun "up" 7 "postgres" "migrations" "" = some ("migration failed")
  ∧ (runMain gooseFailInput).gooseCalls = [⟨"up", 7, "postgres", "migrations", ""⟩]
  ∧ (runMain gooseFailInput).exitCode = 0 := by
  refine ⟨rfl, rfl, rfl⟩

/-- C1 (amended): configuration, enablement and connection failures exit
with status 1, but when the migration command itself fails the error is
only printed and the process exits with status 0; the exit status does not
distinguish migration execution failure from success. -/
theorem c1_exit_status (i : MainInput) (db n : Nat) (e : String)
    (hc : i.configLoadErr = none) (hd : i.databaseEnabled = true)
    (hconn : openDbConnection i = (Except.ok db, n)) (hcmd : ¬ i.command = "")
    (hg : i.gooseRun i.command db i.dialect i.migrationDir i.args = some e) :
    (runMain i).exitCode = 0 ∧ e ∈ (runMain i).printed := by
  rw [runMain_gooseErr i db n e hc hd hconn hcmd hg]
  exact ⟨rfl, by simp⟩

/-- Witness for the amended C1 at a concrete invocation. -/
theorem c1_exit_status_witness :
    (runMain gooseFailInput).exitCode = 0 ∧
      "migration failed" ∈ (runMain gooseFailInput).printed :=
  c1_exit_status gooseFailInput 7 1 "migration failed" rfl rfl rfl (by decide) rfl

/-- C2 counterexample: a concrete empty-command run whose default status
action returns an error and was invoked, yet only the connection message
is printed: the error is discarded. -/
theorem c2_counterexample :
    statusFailInput.gooseRun "status" 7 "postgres" "migrations" "" = some ("status failed")
  ∧ (runMain statusFailInput).gooseCalls = [⟨"status", 7, "postgres", "migrations", ""⟩]
  ∧ (runMain statusFailInput).printed = ["Connected to: localhost"] := by
  refine ⟨rfl, rfl, rfl⟩

/-- C2 (amended): errors from configuration loading, connection and
explicit non-empty migration commands are printed, but when the tool is
invoked with an empty command the error of the default status action is
discarded: whatever that action returns, only the connection message is
printed and usage is shown. -/
theorem c2_error_reporting (i : MainInput) (db n : Nat)
    (hc : i.configLoadErr = none) (hd : i.databaseEnabled = true)
    (hconn : openDbConnection i = (Except.ok db, n)) :
    (∀ e, ¬ i.command = "" →
        i.gooseRun i.command db i.dialect i.migrationDir i.args = some e →
        e ∈ (runMain i).printed)
  ∧ (i.command = "" →
        (runMain i).printed = [connMessage i] ∧ (runMain i).usageShown = true) := by
  constructor
  · intro e hcmd hg
    rw [runMain_gooseErr i db n e hc hd hconn hcmd hg]
    simp
  · intro hcmd
    rw [runMain_emptyCommand i db n hc hd hconn hcmd]
    exact ⟨rfl, rfl⟩

/-- Witness for the amended C2 at a concrete invocation. -/
theorem c2_error_reporting_witness :
    "migration failed" ∈ (runMain gooseFailInput).printed :=
  (c2_error_reporting gooseFailInput 7 1 rfl rfl rfl).1 "migration failed" (by decide) rfl

/-- C3 counterexample: the command `frobnicate` is outside the documented
command set, yet the invocation is not rejected at the boundary: the
database connection is established (a database interaction), the command
is delegated to goose unchanged, and the process exits with status 0. -/
theorem c3_counterexample :
    "frobnicate" ∉ gooseCommands
  ∧ (runMain bogusCommandInput).connectAttempts = 1
  ∧ (runMain bogusCommandInput).gooseCalls =
      [⟨"frobnicate", 7, "postgres", "migrations", ""⟩]
  ∧ (runMain bogusCommandInput).exitCode = 0 := by
  refine ⟨by decide, rfl, rfl, rfl⟩

/-- C3 (amended): the CLI validates no command at the boundary: every
non-empty command string, whether or not it belongs to the documented set
{status, up, up-by-one, up-to, down, down-to, create}, is delegated
unmodified to the migration library, and only after the database
connection (a side effect) has already been established; only the empty
string is special-cased, to a default status run. -/
theorem c3_no_boundary_validation (i : MainInput) (db n : Nat)
    (hc : i.configLoadErr = none) (hd : i.databaseEnabled = true)
    (hconn : openDbConnection i = (Except.ok db, n))
    (hcmd : ¬ i.command = "") (hbad : i.command ∉ gooseCommands) :
    (runMain i).gooseCalls = [⟨i.command, db, i.dialect, i.migrationDir, i.args⟩]
  ∧ (runMain i).connectAttempts = 1 := by
  have hn : n = 1 := openDbConnection_ok_attempts i db n hconn
  cases hg : i.gooseRun i.command db i.dialect i.migrationDir i.args with
  | none =>
      rw [runMain_gooseOk i db n hc hd hconn hcmd hg]
      exact ⟨rfl, hn⟩
  | some e =>
      rw [runMain_gooseErr i db n e hc hd hconn hcmd hg]
      exact ⟨rfl, hn⟩

/-- Witness for the amended C3 at a concrete invocation. -/
theorem c3_no_boundary_validation_witness :
    (runMain bogusCommandInput).gooseCalls =
      [⟨"frobnicate", 7, "postgres", "migrations", ""⟩]
  ∧ (runMain bogusCommandInput).connectAttempts = 1 :=
  c3_no_boundary_validation bogusCommandInput 7 1 rfl rfl rfl (by decide) (by decide)

/-- C6: after any `up` run, failed or not, the resulting ledger is the
starting ledger extended by exactly the maximal prefix of the plan whose
up-scripts succeeded: the ledger contains no version whose up-script did
not fully succeed, and once a step fails no further step of the plan is
executed (the run's completion flag is the conjunction of the plan's
script outcomes). -/
theorem c6_ledger_integrity (exec : Nat → Bool) (registry ledger : List Nat) :
    (Goose.runUp exec registry ledger).1
      = ledger ++ (Goose.planUp registry ledger).takeWhile exec
  ∧ (∀ v ∈ (Goose.runUp exec registry ledger).1, v ∈ ledger ∨ exec v = true)
  ∧ (Goose.runUp exec registry ledger).2 = (Goose.planUp registry ledger).all exec := by
  have h := Goose.runSteps_eq exec (Goose.planUp registry ledger) ledger
  refine ⟨?_, ?_, ?_⟩
  · rw [Goose.runUp, h]
  · intro v hv
    rw [Goose.runUp, h] at hv
    rcases List.mem_append.mp hv with h1 | h2
    · exact Or.inl h1
    · exact Or.inr (List.mem_takeWhile_imp h2)
  · rw [Goose.runUp, h]

/-- Witness for C6 at a concrete plan with a failing step: versions 1 and
2 succeed, version 3 fails, and the resulting ledger is exactly {1, 2}. -/
theorem c6_ledger_integrity_witness :
    (Goose.runUp (fun v => decide (v < 3)) [3, 1, 2] []).1
      = [] ++ (Goose.planUp [3, 1, 2] []).takeWhile (fun v => decide (v < 3)) := by
  have h := c6_ledger_integrity (fun v => decide (v < 3)) [3, 1, 2] []
  exact h.1

/-- C7: if an `up` run completes its whole plan successfully then a second
`up` run from the resulting ledger computes an empty plan and leaves the
ledger identical. -/
theorem c7_up_idempotent (exec : Nat → Bool) (registry ledger : List Nat)
    (h : (Goose.runUp exec registry ledger).2 = true) :
    Goose.planUp registry (Goose.runUp exec registry ledger).1 = []
  ∧ Goose.runUp exec registry (Goose.runUp exec registry ledger).1
      = ((Goose.runUp exec registry ledger).1, true) := by
  have hs := Goose.runSteps_eq exec (Goose.planUp registry ledger) ledger
  have hall : (Goose.planUp registry ledger).all exec = true := by
    rw [Goose.runUp, hs] at h
    exact h
  have hfst : (Goose.runUp exec registry ledger).1
      = ledger ++ Goose.planUp registry ledger := by
    rw [Goose.runUp, hs]
    have : (Goose.planUp registry ledger).takeWhile exec = Goose.planUp registry ledger :=
      List.takeWhile_eq_self_iff.mpr (by simpa [List.all_eq_true] using hall)
    rw [this]
  have hmem : ∀ v ∈ registry, v ∈ (Goose.runUp exec registry ledger).1 := by
    intro v hv
    rw [hfst]
    rcases Classical.em (v ∈ ledger) with hl | hl
    · exact List.mem_append.mpr (Or.inl hl)
    · refine List.mem_append.mpr (Or.inr ?_)
      rw [Goose.planUp, Goose.mem_sortAsc]
      exact List.mem_filter.mpr ⟨hv, by simpa using hl⟩
  have hplan : Goose.planUp registry (Goose.runUp exec registry ledger).1 = [] := by
    rw [Goose.planUp]
    have hf : registry.filter
        (fun v => decide (v ∉ (Goose.runUp exec registry ledger).1)) = [] := by
      rw [List.filter_eq_nil_iff]
      intro v hv
      simpa using hmem v hv
    rw [hf]
    rfl
  refine ⟨hplan, ?_⟩
  rw [Goose.runUp, hplan]
  rfl

/-- Witness for C7 at a concrete registry, all scripts succeeding. -/
theorem c7_up_idempotent_witness :
    Goose.planUp [2, 1, 3] (Goose.runUp (fun _ => true) [2, 1, 3] []).1 = []
  ∧ Goose.runUp (fun _ => true) [2, 1, 3] (Goose.runUp (fun _ => true) [2, 1, 3] []).1
      = ((Goose.runUp (fun _ => true) [2, 1, 3] []).1, true) :=
  c7_up_idempotent (fun _ => true) [2, 1, 3] [] (by decide)

/-- C8: `Fixer.Setup` returns an error exactly when the settings'
`APIKeyLvl` is below 0 or above 4; in the error case the receiver is
unchanged, and on success the `APIKey`, `APIKeyLvl`, `Enabled`, `Name`,
`RESTPollingDelay`, `Verbose` and `PrimaryProvider` fields are all copied
from the settings. -/
theorem c8_setup_spec (f : Fixer) (config : Settings) :
    ((Fixer.Setup f config).2.isSome ↔ config.APIKeyLvl < 0 ∨ 4 < config.APIKeyLvl)
  ∧ (config.APIKeyLvl < 0 ∨ 4 < config.APIKeyLvl → (Fixer.Setup f config).1 = f)
  ∧ (¬(config.APIKeyLvl < 0 ∨ 4 < config.APIKeyLvl) →
      (Fixer.Setup f config).2 = none
    ∧ (Fixer.Setup f config).1.APIKey = config.APIKey
    ∧ (Fixer.Setup f config).1.APIKeyLvl = config.APIKeyLvl
    ∧ (Fixer.Setup f config).1.Enabled = config.Enabled
    ∧ (Fixer.Setup f config).1.Name = config.Name
    ∧ (Fixer.Setup f config).1.RESTPollingDelay = config.RESTPollingDelay
    ∧ (Fixer.Setup f config).1.Verbose = config.Verbose
    ∧ (Fixer.Setup f config).1.PrimaryProvider = config.PrimaryProvider) := by
  by_cases h : config.APIKeyLvl < 0 ∨ 4 < config.APIKeyLvl
  · simp [Fixer.Setup, if_pos h, h]
  · simp [Fixer.Setup, if_neg h, h]

/-- C9: on a successful `GetRates` call every key of the returned map is a
prefix concatenated with a rate symbol of the underlying latest-rates
response; the prefix is `EUR` at the free tier regardless of the requested
base currency, and the requested base currency otherwise. -/
theorem c9_getrates_keys (f : Fixer) (baseCurrency symbols : String)
    (net : Except String Rates) (m : List (String × Int))
    (h : (Fixer.GetRates f baseCurrency symbols net).1 = some m)
    (key : String) (hkey : key ∈ m.map Prod.fst) :
    ∃ sym, sym ∈ (Fixer.GetLatestRates f baseCurrency symbols net).1.map Prod.fst
      ∧ key = (if f.APIKeyLvl = fixerAPIFree then ("EUR") else baseCurrency) ++ sym := by
  simp only [Fixer.GetRates] at h
  cases hr : (Fixer.GetLatestRates f baseCurrency symbols net).2 with
  | some e =>
      rw [hr] at h
      simp at h
  | none =>
      rw [hr] at h
      simp only [Option.some.injEq] at h
      rw [← h] at hkey
      simp only [List.map_map, List.mem_map, Function.comp] at hkey
      rcases hkey with ⟨p, hp, hq⟩
      exact ⟨p.1, List.mem_map.mpr ⟨p, hp, rfl⟩, hq.symm⟩

/-- Witness for C9 at the free tier: the key of the single returned rate
is `EURUSD` although the requested base currency was `GBP`. -/
theorem c9_getrates_keys_witness :
    ∃ sym, sym ∈ (Fixer.GetLatestRates freeFixer "GBP" "USD" usdRatesNet).1.map Prod.fst
      ∧ "EURUSD" = (if freeFixer.APIKeyLvl = fixerAPIFree then ("EUR") else "GBP") ++ sym :=
  c9_getrates_keys freeFixer "GBP" "USD" usdRatesNet [("EURUSD", 2)] (by decide)
    "EURUSD" (by decide)

/-- C10: each tier-gated operation fails without sending any HTTP request
when the account level is below its tier (the final boolean of each
embedded operation records whether a request was sent): `ConvertCurrency`
returns `(0, error)` below the basic tier, `GetTimeSeriesData` returns
`(nil, error)` below the professional tier, and `GetFluctuationData`
returns `(nil, error)` below the professional-plus tier, in each case for
every possible network behaviour. -/
theorem c10_tier_gating (f : Fixer) (s1 s2 s3 : String) (amount : Int)
    (syms : List String) (netC : Except String Conversion)
    (netT : Except String TimeSeries) (netF : Except String Fluctuation) :
    (f.APIKeyLvl < fixerAPIBasic →
        Fixer.ConvertCurrency f s1 s2 s3 amount netC
          = ((0, some ("insufficient API privileges, upgrade to basic to use this function")),
              false))
  ∧ (f.APIKeyLvl < fixerAPIProfessional →
        Fixer.GetTimeSeriesData f s1 s2 s3 syms netT
          = ((none,
              some ("insufficient API privileges, upgrade to professional to use this function")),
              false))
  ∧ (f.APIKeyLvl < fixerAPIProfessionalPlus →
        Fixer.GetFluctuationData f s1 s2 s3 syms netF
          = ((none,
              some ("insufficient API privileges, upgrade to professional plus or enterprise to use this function")),
              false)) := by
  refine ⟨fun h => ?_, fun h => ?_, fun h => ?_⟩
  · unfold Fixer.ConvertCurrency
    rw [if_pos h]
  · unfold Fixer.GetTimeSeriesData
    rw [if_pos h]
  · unfold Fixer.GetFluctuationData
    rw [if_pos h]
